import Mathlib

/-!
Shallow embedding of the certificate backend in `server.js` (the copy with the
in-memory fallback store, lines 1-432): the record schema, the two record
stores (MongoDB modelled as a list with a unique index on `reference_id`, and
the in-memory array), the selector `useInMemoryStore`, and the three request
handlers `POST /api/simple_generate`, `GET /api/simple_certificate` and
`GET /api/stats`.

Machine integers are modelled as `Nat` (counters and timestamps never
overflow in the JS semantics relevant here); `Math.random` draws are modelled
as an explicit stream of values in `Fin 36` (one per `charAt` call); the
unbounded `while (!isUnique)` loop is modelled with fuel, `none` standing for
an execution in which the loop has not yet terminated.
-/

/-- A certificate record: the fields shared by the mongoose
`simpleCertificateSchema` document and the in-memory `memObj`
(`reference_id`, `user.name`, `user.email`, `certificate_type`, `timestamp`,
`downloaded`, `download_count`).  `user.name`/`user.email` are flattened. -/
structure CertRecord where
  reference_id : String
  user_name : String
  user_email : String
  certificate_type : String
  timestamp : Nat
  downloaded : Bool
  download_count : Nat
deriving DecidableEq, Repr

/-- A record store is an ordered collection of records (a Mongo collection in
insertion order, or the in-memory array). -/
abbrev Store := List CertRecord

/-- The pair of backing stores: the in-memory array `inMemoryStore` and the
Mongo collection behind the `SimpleCertificate` model. -/
structure Stores where
  mem : Store
  mongo : Store
deriving DecidableEq, Repr

/-- Model of `inMemoryStore.find(c => c.user.email === e)` / Mongo
`findOne({'user.email': e})`: first record with the given email. -/
def findByEmail (s : Store) (e : String) : Option CertRecord :=
  s.find? (fun c => c.user_email == e)

/-- Model of `inMemoryStore.find(c => c.reference_id === id)` / Mongo
`findOne({ reference_id: id })`: first record with the given reference id. -/
def findByRef (s : Store) (r : String) : Option CertRecord :=
  s.find? (fun c => c.reference_id == r)

/-- The flags declared by `simpleCertificateSchema` on `reference_id` and
`user.email` (server.js lines 64-101).  `unique` is not declared on the email
field, so it takes mongoose's default `false`. -/
structure SchemaFlags where
  referenceIdRequired : Bool
  referenceIdUnique : Bool
  referenceIdIndex : Bool
  emailRequired : Bool
  emailLowercase : Bool
  emailUnique : Bool
  emailIndex : Bool
deriving DecidableEq, Repr

/-- The flags of `simpleCertificateSchema` as written in the source. -/
def simpleCertificateSchema : SchemaFlags :=
  { referenceIdRequired := true
    referenceIdUnique := true
    referenceIdIndex := true
    emailRequired := true
    emailLowercase := true
    emailUnique := false
    emailIndex := true }

/-- Model of `newCertificate.save()`: insertion into the Mongo collection.  The unique
index on `reference_id` (the only unique index the schema declares) makes the
save throw a duplicate-key error when the id already exists; no uniqueness is
enforced on the email. -/
def mongoSave (s : Store) (r : CertRecord) : Except String Store :=
  if (findByRef s r.reference_id).isSome then
    Except.error "E11000 duplicate key error"
  else
    Except.ok (s ++ [r])

/-- JS `String.prototype.trim()`: strip leading and trailing whitespace
(modelled over the character list so the kernel can evaluate it). -/
def jsTrim (s : String) : String :=
  String.mk (((s.toList.dropWhile Char.isWhitespace).reverse.dropWhile
    Char.isWhitespace).reverse)

/-- JS `String.prototype.toLowerCase()` (ASCII-relevant part): lower-case
every character. -/
def jsToLower (s : String) : String :=
  String.mk (s.toList.map Char.toLower)

/-- A character allowed by the `[^\s@]` atom of the email regex: anything
that is neither whitespace nor `@`. -/
def isEmailAtomChar (c : Char) : Bool := !(c.isWhitespace || c == '@')

/-- The test of `/^[^\s@]+@[^\s@]+\.[^\s@]+$/` (server.js line 137): exactly
one `@`; a nonempty run of non-whitespace characters before it; after it a
nonempty run of non-whitespace characters containing a `.` that is neither
its first nor its last character (with backtracking, the middle `[^\s@]+` and
the final `[^\s@]+` may themselves contain dots). -/
def emailRegexTest (s : String) : Bool :=
  let cs := s.toList
  cs.count '@' == 1 &&
  (let lp := cs.takeWhile (fun c => c != '@')
   let rest := (cs.dropWhile (fun c => c != '@')).drop 1
   !lp.isEmpty && lp.all isEmailAtomChar &&
   !rest.isEmpty && rest.all isEmailAtomChar &&
   ((rest.drop 1).dropLast.contains '.'))

/-- The alphabet `'0123456789ABCDEFGHIJKLMNOPQRSTUVWXYZ'` of
`generateRandomCode`. -/
def chars : String := "0123456789ABCDEFGHIJKLMNOPQRSTUVWXYZ"

/-- Model of `generateRandomCode`: five characters, each
`chars.charAt(Math.floor(Math.random() * chars.length))`.  One call consumes
five random draws, each a value in `Fin 36` (the value of
`Math.floor(Math.random() * 36)`). -/
def generateRandomCode (d : Fin 5 → Fin 36) : String :=
  String.mk ((List.finRange 5).map (fun i => chars.toList.getD (d i).val ' '))

/-- The `while (!isUnique)` loop (server.js lines 189-197), with the selector
value read afresh at every iteration (`selLoop k` is the value of
`useInMemoryStore` observed by iteration `k`): draw a code, build
`CSAC2025-<code>`, look it up in the store the selector currently points at,
and retry on a hit.  `draws k` are the random draws of iteration `k`; `fuel`
bounds the modelled iterations, `none` meaning the loop was still running. -/
def findUniqueRefIdSched (mem mongo : Store) (selLoop : Nat → Bool)
    (draws : Nat → Fin 5 → Fin 36) : Nat → Nat → Option String
  | _, 0 => none
  | k, fuel + 1 =>
    let rid := "CSAC2025-" ++ generateRandomCode (draws k)
    let dup := if selLoop k then findByRef mem rid else findByRef mongo rid
    match dup with
    | some _ => findUniqueRefIdSched mem mongo selLoop draws (k + 1) fuel
    | none => some rid

/-- The record built for insertion (server.js lines 200-231): cleaned name
and email, `certificate_type: 'Attended'`, `timestamp: new Date()` (the
clock value `now`), `downloaded: false`, `download_count: 0`. -/
def mkCertRecord (rid nm em : String) (now : Nat) : CertRecord :=
  { reference_id := rid
    user_name := nm
    user_email := em
    certificate_type := "Attended"
    timestamp := now
    downloaded := false
    download_count := 0 }

/-- Outcome of `POST /api/simple_generate`. -/
inductive GenResult where
  /-- The 400 response with the given error message. -/
  | invalidInput (msg : String)
  /-- The 200 response with `existing: true` (fields `reference_id`, `name`,
  `email` of the already-stored record). -/
  | existingR (reference_id name email : String)
  /-- The 200 response after storing a new record. -/
  | createdR (reference_id name email : String)
  /-- The 500 response produced by the `catch` handler. -/
  | internalError
deriving DecidableEq, Repr

/-- The `POST /api/simple_generate` handler (server.js lines 120-252), with
the mutable global `useInMemoryStore` read three times: `selCheck` is its
value at the existing-email check (line 146), `selLoop k` its value at
iteration `k` of the uniqueness loop (line 191), and `selStore` its value at
the store step (line 200).  JS falsiness of the `!name || !email` guard on
string inputs is emptiness.  The consts `cleanName` / `cleanEmail` are
inlined as `jsTrim name` / `jsToLower (jsTrim email)`.  A save that throws
lands in the `catch` handler (line 245), producing the 500 response.  `none`
models a run in which the uniqueness loop had not terminated within `fuel`
iterations. -/
def generateSched (name email : String) (selCheck : Bool) (selLoop : Nat → Bool)
    (selStore : Bool) (draws : Nat → Fin 5 → Fin 36) (fuel : Nat) (now : Nat)
    (st : Stores) : Option (GenResult × Stores) :=
  if name = "" || email = "" then
    some (.invalidInput "Name and email are required", st)
  else if !emailRegexTest (jsToLower (jsTrim email)) then
    some (.invalidInput "Invalid email format", st)
  else
    match findByEmail (if selCheck then st.mem else st.mongo)
        (jsToLower (jsTrim email)) with
    | some ex => some (.existingR ex.reference_id ex.user_name ex.user_email, st)
    | none =>
      match findUniqueRefIdSched st.mem st.mongo selLoop draws 0 fuel with
      | none => none
      | some rid =>
        if selStore then
          some (.createdR rid (jsTrim name) (jsToLower (jsTrim email)),
            { st with mem := st.mem ++
                [mkCertRecord rid (jsTrim name) (jsToLower (jsTrim email)) now] })
        else
          match mongoSave st.mongo
              (mkCertRecord rid (jsTrim name) (jsToLower (jsTrim email)) now) with
          | .ok mg =>
            some (.createdR rid (jsTrim name) (jsToLower (jsTrim email)),
              { st with mongo := mg })
          | .error _ => some (.internalError, st)

/-- The generate handler when the selector does not change during the
request: every read of `useInMemoryStore` observes the same value `sel`. -/
def generate (name email : String) (sel : Bool) (draws : Nat → Fin 5 → Fin 36)
    (fuel : Nat) (now : Nat) (st : Stores) : Option (GenResult × Stores) :=
  generateSched name email sel (fun _ => sel) sel draws fuel now st

/-- The store a given selector value routes to (`useInMemoryStore ? inMemoryStore : SimpleCertificate`). -/
def activeStore (sel : Bool) (st : Stores) : Store :=
  if sel then st.mem else st.mongo

/-- Model of `certificate.downloaded = true; certificate.download_count += 1` (the
in-memory branch writes `(certificate.download_count || 0) + 1`, which on a
numeric counter is the same increment). -/
def markDownloaded (r : CertRecord) : CertRecord :=
  { r with downloaded := true, download_count := r.download_count + 1 }

/-- Apply `markDownloaded` to the first record with the given reference id
(the object returned by `find` / `findOne` is mutated in place and, for
Mongo, saved). -/
def updateFirstByRef : Store → String → Store
  | [], _ => []
  | c :: rest, i =>
    if c.reference_id == i then markDownloaded c :: rest
    else c :: updateFirstByRef rest i

/-- Outcome of `GET /api/simple_certificate`. -/
inductive CertResult where
  /-- The 400 response `Certificate ID is required` (the `!id` guard). -/
  | missingId
  /-- The 404 response `Certificate not found` (Mongo branch). -/
  | notFoundMongo
  /-- The 404 response `Certificate not found (in-memory)` (in-memory branch). -/
  | notFoundMem
  /-- The 200 response with the record's fields. -/
  | found (reference_id name email certificate_type : String) (timestamp : Nat)
deriving DecidableEq, Repr

/-- HTTP status of a `GET /api/simple_certificate` outcome. -/
def certStatusCode : CertResult → Nat
  | .missingId => 400
  | .notFoundMongo => 404
  | .notFoundMem => 404
  | .found _ _ _ _ _ => 200

/-- Error message of a `GET /api/simple_certificate` outcome. -/
def certErrorMsg : CertResult → Option String
  | .missingId => some "Certificate ID is required"
  | .notFoundMongo => some "Certificate not found"
  | .notFoundMem => some "Certificate not found (in-memory)"
  | .found _ _ _ _ _ => none

/-- The `GET /api/simple_certificate` handler (server.js lines 255-317).
`id` is the query parameter: `none` models an absent parameter (JS
`undefined`), and the `!id` guard also fires on the empty string.  `sel` is
the value of `useInMemoryStore`.  On a hit the record is marked downloaded
and the (mutated) record's fields are returned. -/
def getCertificate (id : Option String) (sel : Bool) (st : Stores) :
    CertResult × Stores :=
  match id with
  | none => (.missingId, st)
  | some i =>
    if i = "" then (.missingId, st)
    else if sel then
      match findByRef st.mem i with
      | none => (.notFoundMem, st)
      | some c =>
        let c' := markDownloaded c
        (.found c'.reference_id c'.user_name c'.user_email c'.certificate_type
          c'.timestamp, { st with mem := updateFirstByRef st.mem i })
    else
      match findByRef st.mongo i with
      | none => (.notFoundMongo, st)
      | some c =>
        let c' := markDownloaded c
        (.found c'.reference_id c'.user_name c'.user_email c'.certificate_type
          c'.timestamp, { st with mongo := updateFirstByRef st.mongo i })

/-- The stores after `n` consecutive `GET /api/simple_certificate` requests
for the same id against the same selector value. -/
def getCertificateIter (id : Option String) (sel : Bool) : Nat → Stores → Stores
  | 0, st => st
  | n + 1, st => getCertificateIter id sel n (getCertificate id sel st).2

/-- The projection applied to the records listed by `/api/stats` (the
`.map`/`.select` of `reference_id user.name user.email timestamp downloaded
download_count`). -/
structure RecentEntry where
  reference_id : String
  user_name : String
  user_email : String
  timestamp : Nat
  downloaded : Bool
  download_count : Nat
deriving DecidableEq, Repr

/-- Project a record to the fields `/api/stats` returns for `recent`. -/
def toRecentEntry (c : CertRecord) : RecentEntry :=
  { reference_id := c.reference_id
    user_name := c.user_name
    user_email := c.user_email
    timestamp := c.timestamp
    downloaded := c.downloaded
    download_count := c.download_count }

/-- Model of `sort((a, b) => new Date(b.timestamp) - new Date(a.timestamp))` /
`sort({ timestamp: -1 })`: stable sort, newest timestamp first. -/
def sortByTimestampDesc (s : Store) : Store :=
  s.mergeSort (fun a b => b.timestamp ≤ a.timestamp)

/-- The body of a `/api/stats` response. -/
structure StatsResult where
  total : Nat
  downloaded : Nat
  pending : Nat
  recent : List RecentEntry
deriving DecidableEq, Repr

/-- The `GET /api/stats` handler (server.js lines 320-364) applied to one
store (both branches compute the same aggregate over their own store):
`total` is the record count, `downloaded` counts records with
`downloaded = true`, `pending = total - downloaded`, and `recent` is the 10
newest records, newest first. -/
def stats (s : Store) : StatsResult :=
  { total := s.length
    downloaded := (s.filter (fun c => c.downloaded)).length
    pending := s.length - (s.filter (fun c => c.downloaded)).length
    recent := ((sortByTimestampDesc s).take 10).map toRecentEntry }

/-- Result of `/api/stats` against the store the selector routes to. -/
def statsEndpoint (sel : Bool) (st : Stores) : StatsResult :=
  stats (activeStore sel st)

/-- Initial value of the selector: `let useInMemoryStore = false;`
(server.js line 31), in force until the `mongoose.connect` promise settles
or a connection event fires. -/
def initialUseInMemoryStore : Bool := false

/-- The two backends. -/
inductive Backend where
  | durable
  | inMemory
deriving DecidableEq, Repr

/-- Which backend a selector value routes operations to. -/
def routedBackend (sel : Bool) : Backend :=
  if sel then .inMemory else .durable

/-- Selector after `mongoose.connect(...).then(...)`: `useInMemoryStore = false`. -/
def selAfterConnectSuccess (_sel : Bool) : Bool := false

/-- Selector after `mongoose.connect(...).catch(...)`: `useInMemoryStore = true`. -/
def selAfterConnectFailure (_sel : Bool) : Bool := true

/-- Selector after the `connected` event listener: `useInMemoryStore = false`. -/
def selOnConnectedEvent (_sel : Bool) : Bool := false

/-- Selector after the `disconnected` event listener: `useInMemoryStore = true`. -/
def selOnDisconnectedEvent (_sel : Bool) : Bool := true

/-- Record state after `n` successful download calls: `downloaded` becomes
true as soon as `n > 0` and `download_count` grows by exactly `n`. -/
def afterDownloads (c : CertRecord) (n : Nat) : CertRecord :=
  { c with
    downloaded := c.downloaded || decide (0 < n)
    download_count := c.download_count + n }

/-- Format required of a generated id: the literal prefix `CSAC2025-`
followed by exactly 5 characters drawn from the alphabet `[0-9A-Z]`. -/
def refIdFormatOk (rid : String) : Bool :=
  (rid.toList.take 9 == "CSAC2025-".toList) &&
  (rid.toList.length == 14) &&
  (rid.toList.drop 9).all (fun c => chars.toList.contains c)

theorem generateRandomCode_toList (d : Fin 5 → Fin 36) :
    (generateRandomCode d).toList =
      (List.finRange 5).map (fun i => chars.toList.getD (d i).val ' ') := rfl

theorem generateRandomCode_length (d : Fin 5 → Fin 36) :
    (generateRandomCode d).toList.length = 5 := by
  rw [generateRandomCode_toList, List.length_map, List.length_finRange]

theorem chars_length : chars.toList.length = 36 := by decide

theorem generateRandomCode_mem_chars (d : Fin 5 → Fin 36) :
    ∀ c ∈ (generateRandomCode d).toList, c ∈ chars.toList := by
  intro c hc
  rw [generateRandomCode_toList] at hc
  obtain ⟨i, _, rfl⟩ := List.mem_map.mp hc
  have hlt : (d i).val < chars.toList.length := by
    rw [chars_length]; exact (d i).isLt
  rw [List.getD_eq_getElem?_getD, List.getElem?_eq_getElem hlt]
  exact List.getElem_mem hlt

theorem refIdFormatOk_of_code (d : Fin 5 → Fin 36) :
    refIdFormatOk ("CSAC2025-" ++ generateRandomCode d) = true := by
  have hdata : ("CSAC2025-" ++ generateRandomCode d).toList =
      "CSAC2025-".toList ++ (generateRandomCode d).toList := rfl
  have hlen9 : ("CSAC2025-".toList).length = 9 := by decide
  simp only [refIdFormatOk, hdata, Bool.and_eq_true, beq_iff_eq, List.all_eq_true]
  refine ⟨⟨List.take_left' hlen9, ?_⟩, ?_⟩
  · rw [List.length_append, hlen9, generateRandomCode_length]
  · intro c hc
    rw [List.drop_left' hlen9] at hc
    simpa using generateRandomCode_mem_chars d c hc

theorem findUniqueRefIdSched_eq_some {mem mongo : Store} {selLoop : Nat → Bool}
    {draws : Nat → Fin 5 → Fin 36} {k fuel : Nat} {rid : String}
    (h : findUniqueRefIdSched mem mongo selLoop draws k fuel = some rid) :
    ∃ j, rid = "CSAC2025-" ++ generateRandomCode (draws j) ∧
      (if selLoop j then findByRef mem rid else findByRef mongo rid) = none := by
  induction fuel generalizing k with
  | zero => simp [findUniqueRefIdSched] at h
  | succ fuel ih =>
    rw [findUniqueRefIdSched] at h
    by_cases hdup : (if selLoop k then
        findByRef mem ("CSAC2025-" ++ generateRandomCode (draws k))
      else findByRef mongo ("CSAC2025-" ++ generateRandomCode (draws k))).isSome
    · obtain ⟨v, hv⟩ := Option.isSome_iff_exists.mp hdup
      rw [hv] at h
      exact ih h
    · rw [Option.not_isSome_iff_eq_none] at hdup
      rw [hdup] at h
      simp only [Option.some.injEq] at h
      exact ⟨k, h.symm, h ▸ hdup⟩

/-- C7: the claim asserts that while the first connection attempt is still
pending the selector routes requests to the in-memory fallback.  In the
source, `useInMemoryStore` is initialised to `false` (server.js line 31), so
during that window requests are routed to the durable backend, not the
fallback. -/
theorem initial_selector_routes_durable :
    initialUseInMemoryStore = false ∧
    routedBackend initialUseInMemoryStore = Backend.durable ∧
    routedBackend initialUseInMemoryStore ≠ Backend.inMemory := by
  decide

/-- C7 (amended): the selector starts at `false`, routing requests that
arrive while the first connection attempt is pending to the durable backend;
it switches to the in-memory store only once the connection attempt fails
(`.catch`) or a `disconnected` event fires. -/
theorem initial_selector_amended :
    initialUseInMemoryStore = false ∧
    routedBackend initialUseInMemoryStore = Backend.durable ∧
    selAfterConnectFailure initialUseInMemoryStore = true ∧
    selOnDisconnectedEvent initialUseInMemoryStore = true ∧
    routedBackend (selAfterConnectFailure initialUseInMemoryStore) = Backend.inMemory ∧
    routedBackend (selOnDisconnectedEvent initialUseInMemoryStore) = Backend.inMemory := by
  decide

/-- C10: a lookup request whose `id` query parameter is absent or empty is
answered by the `Certificate ID is required` client error (status 400), both
stores are left untouched, and this outcome is distinct from the two 404
not-found outcomes. -/
theorem missing_id_rejected (sel : Bool) (st : Stores) :
    getCertificate none sel st = (.missingId, st) ∧
    getCertificate (some "") sel st = (.missingId, st) ∧
    certStatusCode .missingId = 400 ∧
    certErrorMsg .missingId = some "Certificate ID is required" ∧
    certStatusCode .notFoundMongo = 404 ∧
    certStatusCode .notFoundMem = 404 ∧
    CertResult.missingId ≠ CertResult.notFoundMongo ∧
    CertResult.missingId ≠ CertResult.notFoundMem := by
  refine ⟨rfl, ?_, rfl, rfl, rfl, rfl, by decide, by decide⟩
  simp [getCertificate]

theorem sortByTimestampDesc_pairwise (s : Store) :
    (sortByTimestampDesc s).Pairwise (fun a b => b.timestamp ≤ a.timestamp) := by
  have h := @List.sorted_mergeSort CertRecord
    (fun a b : CertRecord => decide (b.timestamp ≤ a.timestamp))
    (fun a b c hab hbc => by
      simp only [decide_eq_true_eq] at *
      omega)
    (fun a b => by
      simp only [Bool.or_eq_true, decide_eq_true_eq]
      omega)
    s
  refine h.imp ?_
  intro a b hab
  simpa using hab

/-- C8: for every store state, `/api/stats` reports `total` equal to the
number of records in the active store, `downloaded` equal to the number of
records with `downloaded = true`, `pending = total - downloaded` (with
`downloaded ≤ total`, so `pending + downloaded = total`), and a `recent`
list of at most 10 entries ordered newest timestamp first. -/
theorem stats_correct (sel : Bool) (st : Stores) :
    (statsEndpoint sel st).total = (activeStore sel st).length ∧
    (statsEndpoint sel st).downloaded =
      ((activeStore sel st).filter (fun c => c.downloaded)).length ∧
    (statsEndpoint sel st).pending =
      (statsEndpoint sel st).total - (statsEndpoint sel st).downloaded ∧
    (statsEndpoint sel st).downloaded ≤ (statsEndpoint sel st).total ∧
    (statsEndpoint sel st).pending + (statsEndpoint sel st).downloaded =
      (statsEndpoint sel st).total ∧
    (statsEndpoint sel st).recent.length ≤ 10 ∧
    (statsEndpoint sel st).recent.Pairwise (fun a b => b.timestamp ≤ a.timestamp) := by
  have hle : ((activeStore sel st).filter (fun c => c.downloaded)).length ≤
      (activeStore sel st).length := List.length_filter_le _ _
  refine ⟨rfl, rfl, rfl, hle, ?_, ?_, ?_⟩
  · exact Nat.sub_add_cancel hle
  · show ((((sortByTimestampDesc (activeStore sel st)).take 10).map
      toRecentEntry).length) ≤ 10
    rw [List.length_map, List.length_take]
    exact Nat.min_le_left _ _
  · show ((((sortByTimestampDesc (activeStore sel st)).take 10).map
      toRecentEntry)).Pairwise (fun a b => b.timestamp ≤ a.timestamp)
    refine List.Pairwise.map toRecentEntry ?_
      ((sortByTimestampDesc_pairwise (activeStore sel st)).take)
    intro a b hab
    exact hab

theorem generateSched_created_inv {name email : String} {selCheck : Bool}
    {selLoop : Nat → Bool} {selStore : Bool} {draws : Nat → Fin 5 → Fin 36}
    {fuel now : Nat} {st st' : Stores} {rid n e : String}
    (h : generateSched name email selCheck selLoop selStore draws fuel now st =
      some (.createdR rid n e, st')) :
    name ≠ "" ∧ email ≠ "" ∧ n = jsTrim name ∧ e = jsToLower (jsTrim email) ∧
    emailRegexTest e = true ∧
    findByEmail (if selCheck then st.mem else st.mongo) e = none ∧
    findUniqueRefIdSched st.mem st.mongo selLoop draws 0 fuel = some rid ∧
    ((selStore = true ∧ st' = ⟨st.mem ++ [mkCertRecord rid n e now], st.mongo⟩) ∨
     (selStore = false ∧ st' = ⟨st.mem, st.mongo ++ [mkCertRecord rid n e now]⟩)) := by
  unfold generateSched at h
  split at h
  · simp at h
  case isFalse hguard =>
    split at h
    · simp at h
    case isFalse hreg =>
      split at h
      case h_1 ex hex => simp at h
      case h_2 hex =>
        split at h
        case h_1 => simp at h
        case h_2 rid0 hrid0 =>
          simp only [Bool.or_eq_true, decide_eq_true_eq, not_or] at hguard
          simp only [Bool.not_eq_true', Bool.not_eq_false] at hreg
          split at h
          case isTrue hs =>
            simp only [Option.some.injEq, Prod.mk.injEq, GenResult.createdR.injEq] at h
            obtain ⟨⟨hr, hn, he⟩, hst⟩ := h
            subst hr; subst hn; subst he
            exact ⟨hguard.1, hguard.2, rfl, rfl, hreg, hex, hrid0,
              Or.inl ⟨hs, hst.symm⟩⟩
          case isFalse hs =>
            split at h
            case h_1 mg hmg =>
              simp only [Option.some.injEq, Prod.mk.injEq, GenResult.createdR.injEq] at h
              obtain ⟨⟨hr, hn, he⟩, hst⟩ := h
              subst hr; subst hn; subst he
              refine ⟨hguard.1, hguard.2, rfl, rfl, hreg, hex, hrid0, Or.inr ⟨by simpa using hs, ?_⟩⟩
              unfold mongoSave at hmg
              split at hmg
              · simp at hmg
              · simp only [Except.ok.injEq] at hmg
                rw [← hst, ← hmg]
            case h_2 err herr => simp at h

theorem generateSched_existing {name email : String} {selCheck : Bool}
    {selLoop : Nat → Bool} {selStore : Bool} {draws : Nat → Fin 5 → Fin 36}
    {fuel now : Nat} {st : Stores} {ex : CertRecord}
    (hname : name ≠ "") (hemail : email ≠ "")
    (hreg : emailRegexTest (jsToLower (jsTrim email)) = true)
    (hfound : findByEmail (if selCheck then st.mem else st.mongo)
      (jsToLower (jsTrim email)) = some ex) :
    generateSched name email selCheck selLoop selStore draws fuel now st =
      some (.existingR ex.reference_id ex.user_name ex.user_email, st) := by
  unfold generateSched
  have g1 : (decide (name = "") || decide (email = "")) = false := by
    simp [hname, hemail]
  have g2 : (!emailRegexTest (jsToLower (jsTrim email))) = false := by
    simp [hreg]
  simp only [g1, g2, Bool.false_eq_true, if_false, hfound]

theorem jsToLower_empty : jsToLower (jsTrim "") = "" := by decide

theorem emailRegexTest_empty : emailRegexTest "" = false := by decide

/-- C1: if a generate call created a record (reference id `rid`, stored name
`n`, stored email `e`), then any later generate call against the resulting
state whose email normalises to the same value (and whose name passes the
falsiness guard) returns the existing record — the `existing: true` response
(`created = false`) with the identical `reference_id` — and leaves both
stores unchanged: no second record is inserted. -/
theorem generate_idempotent_same_email (name1 email1 name2 email2 : String)
    (sel : Bool) (draws draws2 : Nat → Fin 5 → Fin 36)
    (fuel fuel2 now now2 : Nat) (st st1 : Stores) (rid n e : String)
    (h : generate name1 email1 sel draws fuel now st =
      some (.createdR rid n e, st1))
    (hname : name2 ≠ "")
    (hemail : jsToLower (jsTrim email2) = jsToLower (jsTrim email1)) :
    generate name2 email2 sel draws2 fuel2 now2 st1 =
      some (.existingR rid n e, st1) := by
  obtain ⟨h1, h2, hn, he, hreg, hnone, hfind, hstore⟩ := generateSched_created_inv h
  have hee : jsToLower (jsTrim email2) = e := by rw [hemail, he]
  have hne2 : email2 ≠ "" := by
    intro hemp
    rw [hemp, jsToLower_empty] at hee
    rw [← hee] at hreg
    rw [emailRegexTest_empty] at hreg
    exact absurd hreg (by decide)
  have hfound : findByEmail (if sel then st1.mem else st1.mongo)
      (jsToLower (jsTrim email2)) = some (mkCertRecord rid n e now) := by
    rw [hee]
    have hemailrec : (mkCertRecord rid n e now).user_email == e := by
      simp [mkCertRecord]
    rcases hstore with ⟨hs, rfl⟩ | ⟨hs, rfl⟩
    · rw [hs] at hnone ⊢
      simp only [if_pos rfl, if_true] at hnone ⊢
      rw [findByEmail] at hnone ⊢
      rw [List.find?_append, hnone]
      simp [List.find?, hemailrec]
    · rw [hs] at hnone ⊢
      simp only [if_neg (by decide : ¬ (false = true)), if_false] at hnone ⊢
      rw [findByEmail] at hnone ⊢
      rw [List.find?_append, hnone]
      simp [List.find?, hemailrec]
  have := @generateSched_existing name2 email2 sel (fun _ => sel) sel draws2
    fuel2 now2 st1 (mkCertRecord rid n e now)
    hname hne2 (by rw [hee]; exact hreg) hfound
  rw [generate, this]
  simp [mkCertRecord]

/-- Witness for C1: a concrete second call with the same normalised email
returns the existing record unchanged. -/
theorem generate_idempotent_same_email_witness :
    generate "Bob" "ada@example.COM " true (fun _ _ => 1) 2 5
        ⟨[mkCertRecord "CSAC2025-00000" "Ada" "ada@example.com" 0], []⟩ =
      some (.existingR "CSAC2025-00000" "Ada" "ada@example.com",
        ⟨[mkCertRecord "CSAC2025-00000" "Ada" "ada@example.com" 0], []⟩) :=
  generate_idempotent_same_email "Ada" " ADA@Example.com" "Bob" "ada@example.COM "
    true (fun _ _ => 0) (fun _ _ => 1) 1 2 0 5 ⟨[], []⟩
    ⟨[mkCertRecord "CSAC2025-00000" "Ada" "ada@example.com" 0], []⟩
    "CSAC2025-00000" "Ada" "ada@example.com"
    (by decide) (by decide) (by decide)

/-- C2: every record created by generate carries a reference id of the form
`CSAC2025-` followed by exactly 5 characters from the alphabet `[0-9A-Z]`,
and that id differs from the id of every record already present in the store
that is active at creation time. -/
theorem created_refid_format_and_unique (name email : String) (sel : Bool)
    (draws : Nat → Fin 5 → Fin 36) (fuel now : Nat) (st : Stores)
    (rid n e : String) (st' : Stores)
    (h : generate name email sel draws fuel now st =
      some (.createdR rid n e, st')) :
    refIdFormatOk rid = true ∧
    ∀ r ∈ activeStore sel st, r.reference_id ≠ rid := by
  obtain ⟨-, -, -, -, -, -, hfind, -⟩ := generateSched_created_inv h
  obtain ⟨j, hj, hfresh⟩ := findUniqueRefIdSched_eq_some hfind
  constructor
  · rw [hj]; exact refIdFormatOk_of_code (draws j)
  · intro r hr hcontra
    have hnone : findByRef (activeStore sel st) rid = none := by
      cases sel
      · simpa [activeStore] using hfresh
      · simpa [activeStore] using hfresh
    rw [findByRef, List.find?_eq_none] at hnone
    exact hnone r hr (by simp [hcontra])

/-- Witness for C2: the id created by a concrete run has the required format. -/
theorem created_refid_format_and_unique_witness :
    refIdFormatOk "CSAC2025-00000" = true :=
  (created_refid_format_and_unique "Ada" "ada@example.com" true (fun _ _ => 0)
    1 0 ⟨[], []⟩ "CSAC2025-00000" "Ada" "ada@example.com"
    ⟨[mkCertRecord "CSAC2025-00000" "Ada" "ada@example.com" 0], []⟩
    (by decide)).1

/-- C9: the reference id of every created record starts with the literal
string `CSAC2025-`, for every clock value `now` — the year component is the
hard-coded constant `2025`, not derived from the generation date. -/
theorem created_refid_prefix_constant (name email : String) (sel : Bool)
    (draws : Nat → Fin 5 → Fin 36) (fuel now : Nat) (st : Stores)
    (rid n e : String) (st' : Stores)
    (h : generate name email sel draws fuel now st =
      some (.createdR rid n e, st')) :
    rid.toList.take 9 = "CSAC2025-".toList := by
  obtain ⟨-, -, -, -, -, -, hfind, -⟩ := generateSched_created_inv h
  obtain ⟨j, hj, -⟩ := findUniqueRefIdSched_eq_some hfind
  rw [hj]
  exact List.take_left' (by decide)

/-- Witness for C9: at the concrete date value 31536000 the created id still
has prefix `CSAC2025-`. -/
theorem created_refid_prefix_constant_witness :
    ("CSAC2025-00000" : String).toList.take 9 = "CSAC2025-".toList :=
  created_refid_prefix_constant "Ada" "ada@example.com" true (fun _ _ => 0)
    1 31536000 ⟨[], []⟩ "CSAC2025-00000" "Ada" "ada@example.com"
    ⟨[mkCertRecord "CSAC2025-00000" "Ada" "ada@example.com" 31536000], []⟩
    (by decide)

/-- C4 counterexample: the name `" "` is empty after trimming, yet the call
does not fail with the client error — the `!name` guard tests the raw
(untrimmed) string, which is truthy, and no check of `cleanName` follows, so
a record whose stored name is the empty string is inserted. -/
theorem whitespace_name_accepted :
    jsTrim " " = "" ∧
    generate " " "x@y.com" true (fun _ _ => 0) 1 0 ⟨[], []⟩ =
      some (.createdR "CSAC2025-00000" "" "x@y.com",
        ⟨[mkCertRecord "CSAC2025-00000" "" "x@y.com" 0], []⟩) := by
  decide

/-- C4 (amended): a generate call whose raw name or raw email is the empty
string (JS-falsy), or whose normalised email fails the regex, fails with the
corresponding 400 client error and inserts nothing into either store; a
whitespace-only name, by contrast, passes validation (see the
counterexample). -/
theorem invalid_input_rejected (name email : String) (selCheck : Bool)
    (selLoop : Nat → Bool) (selStore : Bool) (draws : Nat → Fin 5 → Fin 36)
    (fuel now : Nat) (st : Stores)
    (h : name = "" ∨ email = "" ∨
      emailRegexTest (jsToLower (jsTrim email)) = false) :
    generateSched name email selCheck selLoop selStore draws fuel now st =
      some (.invalidInput (if name = "" ∨ email = "" then
        "Name and email are required" else "Invalid email format"), st) := by
  unfold generateSched
  by_cases hg : name = "" ∨ email = ""
  · have hcond : (decide (name = "") || decide (email = "")) = true := by
      rcases hg with hg | hg <;> simp [hg]
    rw [if_pos hcond, if_pos hg]
  · have hcond : ¬ ((decide (name = "") || decide (email = "")) = true) := by
      rw [not_or] at hg
      simp [hg.1, hg.2]
    have hreg : emailRegexTest (jsToLower (jsTrim email)) = false := by
      rcases h with h | h | h
      · exact absurd (Or.inl h) hg
      · exact absurd (Or.inr h) hg
      · exact h
    rw [if_neg hcond, if_neg hg,
      if_pos (by rw [hreg]; rfl :
        (!emailRegexTest (jsToLower (jsTrim email))) = true)]

/-- Witness for the amended C4: the spec scenario `generate("", "x@y.com")`
fails with the 400 error and leaves the stores empty. -/
theorem invalid_input_rejected_witness :
    generateSched "" "x@y.com" true (fun _ => true) true (fun _ _ => 0) 1 0
        ⟨[], []⟩ =
      some (.invalidInput "Name and email are required", ⟨[], []⟩) := by
  have h := invalid_input_rejected "" "x@y.com" true (fun _ => true) true
    (fun _ _ => 0) 1 0 ⟨[], []⟩ (Or.inl rfl)
  simpa using h

/-- C5 counterexample: the schema declares no unique index on the email, and
a uniqueness violation on insert (here: the store step runs against the
Mongo store, which already holds the id that the loop had checked against
the in-memory store after a selector flip) is surfaced at once as the 500
internal error — not recovered by re-resolving by email or retrying. -/
theorem conflict_surfaces_internal_error :
    simpleCertificateSchema.emailUnique = false ∧
    generateSched "Ada" "ada@y.com" true (fun _ => true) false (fun _ _ => 0)
        1 0 ⟨[], [mkCertRecord "CSAC2025-00000" "Bob" "bob@x.com" 0]⟩ =
      some (.internalError,
        ⟨[], [mkCertRecord "CSAC2025-00000" "Bob" "bob@x.com" 0]⟩) := by
  decide

/-- C5 (amended): the durable backend enforces uniqueness only for
`reference_id` (the email field is indexed but not uniquely); an insert that
does not collide on `reference_id` succeeds even when the email already
exists, an insert that collides on `reference_id` throws the duplicate-key
error, and a throwing save is surfaced by the `catch` handler as an
immediate 500 internal error with both stores unchanged — there is no retry
of id generation and no re-resolution by email. -/
theorem conflict_handling_amended :
    simpleCertificateSchema.referenceIdUnique = true ∧
    simpleCertificateSchema.emailUnique = false ∧
    (∀ (s : Store) (r : CertRecord), findByRef s r.reference_id = none →
      mongoSave s r = Except.ok (s ++ [r])) ∧
    (∀ (s : Store) (r : CertRecord), (findByRef s r.reference_id).isSome = true →
      mongoSave s r = Except.error "E11000 duplicate key error") ∧
    (∀ (name email : String) (selCheck : Bool) (selLoop : Nat → Bool)
      (draws : Nat → Fin 5 → Fin 36) (fuel now : Nat) (st : Stores) (rid : String),
      name ≠ "" → email ≠ "" →
      emailRegexTest (jsToLower (jsTrim email)) = true →
      findByEmail (if selCheck then st.mem else st.mongo)
        (jsToLower (jsTrim email)) = none →
      findUniqueRefIdSched st.mem st.mongo selLoop draws 0 fuel = some rid →
      (findByRef st.mongo rid).isSome = true →
      generateSched name email selCheck selLoop false draws fuel now st =
        some (.internalError, st)) := by
  refine ⟨rfl, rfl, ?_, ?_, ?_⟩
  · intro s r hnone
    unfold mongoSave
    rw [if_neg (by rw [hnone]; simp)]
  · intro s r hdup
    unfold mongoSave
    rw [if_pos hdup]
  · intro name email selCheck selLoop draws fuel now st rid hname hemail hreg
      hnone hfind hdup
    have hsave : mongoSave st.mongo
        (mkCertRecord rid (jsTrim name) (jsToLower (jsTrim email)) now) =
        Except.error "E11000 duplicate key error" := by
      unfold mongoSave
      simp only [mkCertRecord]
      rw [if_pos hdup]
    unfold generateSched
    rw [if_neg (by simp [hname, hemail] :
      ¬ ((decide (name = "") || decide (email = "")) = true))]
    rw [if_neg (by rw [hreg]; simp :
      ¬ ((!emailRegexTest (jsToLower (jsTrim email))) = true))]
    rw [hnone, hfind]
    simp only [hsave]
    rfl

/-- Witness for the amended C5: a duplicate-email insert succeeds, a
duplicate-id insert throws, and the throwing save produces the 500 outcome. -/
theorem conflict_handling_amended_witness :
    mongoSave [mkCertRecord "CSAC2025-00000" "Bob" "bob@x.com" 0]
        (mkCertRecord "CSAC2025-11111" "Eve" "bob@x.com" 1) =
      Except.ok [mkCertRecord "CSAC2025-00000" "Bob" "bob@x.com" 0,
        mkCertRecord "CSAC2025-11111" "Eve" "bob@x.com" 1] ∧
    mongoSave [mkCertRecord "CSAC2025-00000" "Bob" "bob@x.com" 0]
        (mkCertRecord "CSAC2025-00000" "Eve" "eve@x.com" 1) =
      Except.error "E11000 duplicate key error" ∧
    generateSched "Ada" "ada@y.com" false (fun _ => true) false (fun _ _ => 0)
        1 0 ⟨[], [mkCertRecord "CSAC2025-00000" "Bob" "bob@x.com" 0]⟩ =
      some (.internalError,
        ⟨[], [mkCertRecord "CSAC2025-00000" "Bob" "bob@x.com" 0]⟩) :=
  ⟨conflict_handling_amended.2.2.1 _ _ (by decide),
   conflict_handling_amended.2.2.2.1 _ _ (by decide),
   conflict_handling_amended.2.2.2.2 "Ada" "ada@y.com" false (fun _ => true)
     (fun _ _ => 0) 1 0 ⟨[], [mkCertRecord "CSAC2025-00000" "Bob" "bob@x.com" 0]⟩
     "CSAC2025-00000" (by decide) (by decide) (by decide) (by decide)
     (by decide) (by decide)⟩

/-- C6 counterexample: the handler re-reads `useInMemoryStore` at each step,
so a flip between the existence check (read `false`: Mongo) and the store
step (read `true`: in-memory) routes the pre-check to one backend and the
insert to the other.  Concretely, the in-memory store already holds a record
for `ada@example.com`; the check consults the (empty) Mongo store, misses,
and the insert then lands in the in-memory store, which ends up holding two
records with the same email — an outcome neither pinned run produces (the
pinned `true` run returns the existing record and changes nothing; the
pinned `false` run inserts into Mongo and leaves the in-memory store
alone). -/
theorem selector_flip_splits_operation :
    generateSched "Eve" "ada@example.com" false (fun _ => true) true
        (fun _ _ => 0) 1 7
        ⟨[mkCertRecord "CSAC2025-XYZAB" "Ada" "ada@example.com" 0], []⟩ =
      some (.createdR "CSAC2025-00000" "Eve" "ada@example.com",
        ⟨[mkCertRecord "CSAC2025-XYZAB" "Ada" "ada@example.com" 0,
          mkCertRecord "CSAC2025-00000" "Eve" "ada@example.com" 7], []⟩) ∧
    (([mkCertRecord "CSAC2025-XYZAB" "Ada" "ada@example.com" 0,
       mkCertRecord "CSAC2025-00000" "Eve" "ada@example.com" 7] : Store).filter
        (fun c => c.user_email == "ada@example.com")).length = 2 ∧
    generate "Eve" "ada@example.com" true (fun _ _ => 0) 1 7
        ⟨[mkCertRecord "CSAC2025-XYZAB" "Ada" "ada@example.com" 0], []⟩ =
      some (.existingR "CSAC2025-XYZAB" "Ada" "ada@example.com",
        ⟨[mkCertRecord "CSAC2025-XYZAB" "Ada" "ada@example.com" 0], []⟩) ∧
    generate "Eve" "ada@example.com" false (fun _ _ => 0) 1 7
        ⟨[mkCertRecord "CSAC2025-XYZAB" "Ada" "ada@example.com" 0], []⟩ =
      some (.createdR "CSAC2025-00000" "Eve" "ada@example.com",
        ⟨[mkCertRecord "CSAC2025-XYZAB" "Ada" "ada@example.com" 0],
          [mkCertRecord "CSAC2025-00000" "Eve" "ada@example.com" 7]⟩) := by
  decide

theorem generateSched_mongo_unchanged {name email : String} {selCheck : Bool}
    {selLoop : Nat → Bool} {draws : Nat → Fin 5 → Fin 36} {fuel now : Nat}
    {st st' : Stores} {r : GenResult}
    (h : generateSched name email selCheck selLoop true draws fuel now st =
      some (r, st')) : st'.mongo = st.mongo := by
  unfold generateSched at h
  split at h
  · simp only [Option.some.injEq, Prod.mk.injEq] at h
    rw [← h.2]
  · split at h
    · simp only [Option.some.injEq, Prod.mk.injEq] at h
      rw [← h.2]
    · split at h
      · simp only [Option.some.injEq, Prod.mk.injEq] at h
        rw [← h.2]
      · split at h
        · simp at h
        · rw [if_pos rfl] at h
          simp only [Option.some.injEq, Prod.mk.injEq] at h
          rw [← h.2]

theorem generateSched_mem_unchanged {name email : String} {selCheck : Bool}
    {selLoop : Nat → Bool} {draws : Nat → Fin 5 → Fin 36} {fuel now : Nat}
    {st st' : Stores} {r : GenResult}
    (h : generateSched name email selCheck selLoop false draws fuel now st =
      some (r, st')) : st'.mem = st.mem := by
  unfold generateSched at h
  split at h
  · simp only [Option.some.injEq, Prod.mk.injEq] at h
    rw [← h.2]
  · split at h
    · simp only [Option.some.injEq, Prod.mk.injEq] at h
      rw [← h.2]
    · split at h
      · simp only [Option.some.injEq, Prod.mk.injEq] at h
        rw [← h.2]
      · split at h
        · simp at h
        · rw [if_neg (by decide : ¬ (false = true))] at h
          split at h
          · simp only [Option.some.injEq, Prod.mk.injEq] at h
            rw [← h.2]
          · simp only [Option.some.injEq, Prod.mk.injEq] at h
            rw [← h.2]

/-- C6 (amended): a generate request that observes one constant selector
value for its whole run touches only the backend that value routes to: a
pinned in-memory run leaves the Mongo store unchanged and a pinned durable
run leaves the in-memory store unchanged.  When the selector flips between
the per-step reads, the pre-check and the insert can target different
backends (see the counterexample). -/
theorem pinned_selector_single_backend (name email : String) (sel : Bool)
    (draws : Nat → Fin 5 → Fin 36) (fuel now : Nat) (st st' : Stores)
    (r : GenResult)
    (h : generate name email sel draws fuel now st = some (r, st')) :
    (sel = true → st'.mongo = st.mongo) ∧ (sel = false → st'.mem = st.mem) := by
  constructor
  · intro hs
    subst hs
    unfold generate at h
    exact generateSched_mongo_unchanged h
  · intro hs
    subst hs
    unfold generate at h
    exact generateSched_mem_unchanged h

/-- Witness for the amended C6: a concrete pinned in-memory run leaves the
Mongo store unchanged. -/
theorem pinned_selector_single_backend_witness :
    (⟨[mkCertRecord "CSAC2025-00000" "Ada" "ada@example.com" 0], []⟩ : Stores).mongo =
      (⟨[], []⟩ : Stores).mongo :=
  (pinned_selector_single_backend "Ada" "ada@example.com" true (fun _ _ => 0)
    1 0 ⟨[], []⟩ ⟨[mkCertRecord "CSAC2025-00000" "Ada" "ada@example.com" 0], []⟩
    (.createdR "CSAC2025-00000" "Ada" "ada@example.com") (by decide)).1 rfl

theorem findByRef_updateFirstByRef {s : Store} {i : String} {c : CertRecord}
    (h : findByRef s i = some c) :
    findByRef (updateFirstByRef s i) i = some (markDownloaded c) := by
  induction s with
  | nil => simp [findByRef] at h
  | cons a rest ih =>
    by_cases ha : (a.reference_id == i) = true
    · rw [findByRef, List.find?_cons, ha] at h
      simp only [Option.some.injEq] at h
      subst h
      have hb : ((markDownloaded a).reference_id == i) = true := ha
      simp only [updateFirstByRef, if_pos ha]
      rw [findByRef, List.find?_cons, hb]
    · rw [Bool.not_eq_true] at ha
      rw [findByRef, List.find?_cons, ha] at h
      have hrec := ih h
      simp only [updateFirstByRef, if_neg (by simp [ha] : ¬ ((a.reference_id == i) = true))]
      rw [findByRef, List.find?_cons, ha]
      exact hrec

theorem getCertificate_hit {sel : Bool} {st : Stores} {i : String}
    {c : CertRecord} (hi : i ≠ "")
    (h : findByRef (activeStore sel st) i = some c) :
    (getCertificate (some i) sel st).1 =
      .found c.reference_id c.user_name c.user_email c.certificate_type
        c.timestamp ∧
    findByRef (activeStore sel (getCertificate (some i) sel st).2) i =
      some (markDownloaded c) := by
  cases sel
  · have h' : findByRef st.mongo i = some c := by simpa [activeStore] using h
    have hupd := findByRef_updateFirstByRef h'
    constructor
    · simp [getCertificate, hi, h', markDownloaded]
    · simpa [getCertificate, hi, h', activeStore] using hupd
  · have h' : findByRef st.mem i = some c := by simpa [activeStore] using h
    have hupd := findByRef_updateFirstByRef h'
    constructor
    · simp [getCertificate, hi, h', markDownloaded]
    · simpa [getCertificate, hi, h', activeStore] using hupd

theorem afterDownloads_zero (c : CertRecord) : afterDownloads c 0 = c := by
  simp [afterDownloads]

theorem afterDownloads_markDownloaded (c : CertRecord) (n : Nat) :
    afterDownloads (markDownloaded c) n = afterDownloads c (n + 1) := by
  simp [afterDownloads, markDownloaded]
  omega

theorem getCertificateIter_find {sel : Bool} {i : String} (hi : i ≠ "") :
    ∀ (n : Nat) (st : Stores) (c : CertRecord),
      findByRef (activeStore sel st) i = some c →
      findByRef (activeStore sel (getCertificateIter (some i) sel n st)) i =
        some (afterDownloads c n) := by
  intro n
  induction n with
  | zero =>
    intro st c h
    rw [afterDownloads_zero]
    simpa [getCertificateIter] using h
  | succ n ih =>
    intro st c h
    have step := (getCertificate_hit hi h).2
    have hrec := ih _ _ step
    rw [afterDownloads_markDownloaded] at hrec
    simpa [getCertificateIter] using hrec

/-- C3: for a record present in the active store with a fresh download
counter, `N ≥ 1` lookup calls with its reference id each return the record's
fields, leave `downloaded = true`, and leave `download_count = N` — each
successful call increments the counter by exactly 1. -/
theorem download_count_increments (sel : Bool) (st : Stores) (rid : String)
    (c : CertRecord) (hrid : rid ≠ "")
    (h : findByRef (activeStore sel st) rid = some c)
    (hc : c.download_count = 0) (N : Nat) (hN : 1 ≤ N) :
    findByRef (activeStore sel (getCertificateIter (some rid) sel N st)) rid =
      some { c with downloaded := true, download_count := N } ∧
    ∀ j, j < N →
      (getCertificate (some rid) sel (getCertificateIter (some rid) sel j st)).1 =
        .found c.reference_id c.user_name c.user_email c.certificate_type
          c.timestamp := by
  constructor
  · have hiter := getCertificateIter_find hrid N st c h
    have hrec : afterDownloads c N =
        { c with downloaded := true, download_count := N } := by
      have h0 : 0 < N := hN
      simp [afterDownloads, h0, hc]
    rw [hiter, hrec]
  · intro j hj
    have hfind := getCertificateIter_find hrid j st c h
    have hit := (getCertificate_hit hrid hfind).1
    rw [hit]
    rfl

/-- Witness for C3: two lookups of a freshly created record leave it with
`downloaded = true` and `download_count = 2`, and the second call still
returns the record. -/
theorem download_count_increments_witness :
    findByRef (activeStore true (getCertificateIter (some "CSAC2025-00000")
        true 2 ⟨[mkCertRecord "CSAC2025-00000" "Ada" "ada@example.com" 0], []⟩))
        "CSAC2025-00000" =
      some { mkCertRecord "CSAC2025-00000" "Ada" "ada@example.com" 0 with
        downloaded := true, download_count := 2 } ∧
    (getCertificate (some "CSAC2025-00000") true
        (getCertificateIter (some "CSAC2025-00000") true 1
          ⟨[mkCertRecord "CSAC2025-00000" "Ada" "ada@example.com" 0], []⟩)).1 =
      .found "CSAC2025-00000" "Ada" "ada@example.com" "Attended" 0 :=
  ⟨(download_count_increments true
      ⟨[mkCertRecord "CSAC2025-00000" "Ada" "ada@example.com" 0], []⟩
      "CSAC2025-00000" (mkCertRecord "CSAC2025-00000" "Ada" "ada@example.com" 0)
      (by decide) (by decide) (by decide) 2 (by decide)).1,
   (download_count_increments true
      ⟨[mkCertRecord "CSAC2025-00000" "Ada" "ada@example.com" 0], []⟩
      "CSAC2025-00000" (mkCertRecord "CSAC2025-00000" "Ada" "ada@example.com" 0)
      (by decide) (by decide) (by decide) 2 (by decide)).2 1 (by decide)⟩
